import Mathlib

/-!
Shallow embedding of the PiBox real-time WebSocket subscription and fan-out
layer (repository nofearsk/module_pibox), together with the dashboard client
code in src/static/js/app.js and src/static/js/websocket.js.

The server-side implementation (services/websocket_service.py) is not present
in the repository snapshot; only its documentation (docs/WEBSOCKET_SUBSCRIPTIONS.md,
the README files) and the browser client are.  Server-side definitions below are
therefore modelled from the specification and the in-repo protocol documentation;
each such definition carries a doc comment saying so.  The client-side
definitions (feed handling, stats rendering, reconnect timer) are translated
directly from the JavaScript sources.
-/

namespace PiBox

/-- Filter kinds of a camera subscription, the closed enumeration from
docs/WEBSOCKET_SUBSCRIPTIONS.md (Filter Options table). -/
inductive FilterKind
  | all
  | unregistered
  | registered
  | none
deriving DecidableEq, Repr

/-- Camera detection event, fields per the spec data model
CameraEvent\x7bcamera, plate, confidence, accessGranted, vehicleType, timestamp,
imageRef\x7d and the camera_event message shape in docs/WEBSOCKET_SUBSCRIPTIONS.md.
The confidence value is modelled as a rational number. -/
structure CameraEvent where
  camera : String
  plate : String
  confidence : Rat
  accessGranted : Bool
  vehicleType : String
  timestamp : String
  imageRef : String
deriving DecidableEq, Repr

/-- Access decision event, broadcast unconditionally (docs access_event shape). -/
structure AccessEvent where
  plate : String
  camera : String
  accessGranted : Bool
  action : String
deriving DecidableEq, Repr

/-- Relay states payload of a barrier_status event. -/
structure BarrierStatus where
  relays : List (Nat × Bool)
deriving DecidableEq, Repr

/-- System status payload of a system_status event. -/
structure SystemStatus where
  odoo_connected : Bool
  last_sync : String
  cameras : Nat
  vehicles : Nat
deriving DecidableEq, Repr

/-- Statistics payload of a stats event: Stats\x7btotal, granted, denied\x7d per the
spec data model and the stats message in docs/WEBSOCKET_SUBSCRIPTIONS.md. -/
structure StatsData where
  total : Nat
  granted : Nat
  denied : Nat
deriving DecidableEq, Repr

/-- Tagged union of the domain events the router fans out. -/
inductive DomainEvent
  | camera_event (e : CameraEvent)
  | access_event (e : AccessEvent)
  | barrier_status (e : BarrierStatus)
  | system_status (e : SystemStatus)
  | stats (e : StatsData)
deriving DecidableEq, Repr

/-- Whether a domain event is a CameraEvent (the only kind subject to filtering). -/
def DomainEvent.isCamera : DomainEvent → Bool
  | .camera_event _ => true
  | _ => false

/-- Modelled from the spec: the Filter Engine predicate of section 4.1
(services/websocket_service.py is absent from src/); also the Filter Options
table of docs/WEBSOCKET_SUBSCRIPTIONS.md.  all matches every event,
unregistered matches iff accessGranted is false, registered iff true,
none matches no event. -/
def filterMatches : FilterKind → CameraEvent → Bool
  | .all, _ => true
  | .unregistered, e => !e.accessGranted
  | .registered, e => e.accessGranted
  | .none, _ => false

/-- Per-connection subscription registry: camera identifier to filter kind,
in insertion order (most recent last). -/
abbrev SubscriptionRegistry := List (String × FilterKind)

/-- Modelled from the spec: subscribe(camera, filter) performs insert-or-replace
of the (camera, filter) entry (section 4.2; websocket_service.py absent). -/
def subscribe (subs : SubscriptionRegistry) (camera : String) (fk : FilterKind) :
    SubscriptionRegistry :=
  if subs.any (fun p => p.1 == camera) then
    subs.map (fun p => if p.1 == camera then (camera, fk) else p)
  else
    subs ++ [(camera, fk)]

/-- Modelled from the spec: unsubscribe(camera) removes the entry if present,
idempotently (section 4.2; websocket_service.py absent). -/
def unsubscribe (subs : SubscriptionRegistry) (camera : String) :
    SubscriptionRegistry :=
  subs.filter (fun p => !(p.1 == camera))

/-- Camera list of a registry, in insertion order, as returned in subscribed,
unsubscribed and get_subscriptions responses. -/
def listCams (subs : SubscriptionRegistry) : List String :=
  subs.map (fun p => p.1)

/-- Effective filter recorded for a camera, if any. -/
def lookupFilter (subs : SubscriptionRegistry) (camera : String) :
    Option FilterKind :=
  (subs.find? (fun p => p.1 == camera)).map (fun p => p.2)

/-- Lifecycle states of a connection per the spec data model. -/
inductive ConnState
  | Open
  | Closing
  | Closed
deriving DecidableEq, Repr

/-- Modelled from the spec: a connection of the Connection Manager, with its
subscription registry, subscribe-all flag, bounded outbound queue (front =
oldest), recorded overflow times, last-liveness timestamp and lifecycle state
(section 3; websocket_service.py absent). -/
structure Connection where
  id : Nat
  subs : SubscriptionRegistry
  subscribeAll : Bool
  queue : List DomainEvent
  overflowTimes : List Nat
  lastLiveness : Nat
  state : ConnState
deriving DecidableEq, Repr

/-- Modelled from the spec: whether a CameraEvent is delivered to a connection,
per section 4.5 step 2: deliver if the subscribe-all flag is set, else if a
subscription for the event's camera exists and its filter matches. -/
def deliversCameraEvent (c : Connection) (e : CameraEvent) : Bool :=
  c.subscribeAll ||
    (match lookupFilter c.subs e.camera with
     | some fk => filterMatches fk e
     | Option.none => false)

/-- Modelled from the spec: routing decision for an arbitrary domain event,
section 4.5 steps 2 and 3: only CameraEvents pass the Filter Engine, every
other kind is delivered unconditionally. -/
def shouldDeliver (c : Connection) (ev : DomainEvent) : Bool :=
  match ev with
  | .camera_event e => deliversCameraEvent c e
  | _ => true

/-- Number of recorded overflow times lying inside the sliding window ending
at the current time. -/
def recentOverflows (window now : Nat) (times : List Nat) : Nat :=
  (times.filter (fun t => now ≤ t + window)).length

/-- Modelled from the spec: enqueue onto the bounded outbound queue with the
drop-oldest-then-mark-degraded overflow policy of section 4.4
(websocket_service.py absent).  cap is the fixed queue capacity, threshold and
window the configured overflow limit; now the current time.  When the queue is
full the oldest event (queue front) is discarded, the new event admitted at the
back, the overflow occurrence recorded, and if more than threshold overflows
fall inside the window the connection is moved to Closing. -/
def enqueueEvent (cap threshold window now : Nat) (c : Connection)
    (ev : DomainEvent) : Connection :=
  if c.queue.length < cap then
    { c with queue := c.queue ++ [ev] }
  else
    let times := c.overflowTimes ++ [now]
    { c with
      queue := c.queue.drop 1 ++ [ev]
      overflowTimes := times
      state :=
        if threshold < recentOverflows window now times then ConnState.Closing
        else c.state }

/-- Modelled from the spec: the Router's action on a single connection of the
broadcast snapshot (section 4.5): only Open connections receive anything, and
an Open connection receives the event exactly when shouldDeliver says so. -/
def routeOne (cap threshold window now : Nat) (ev : DomainEvent)
    (c : Connection) : Connection :=
  match c.state with
  | ConnState.Open =>
      if shouldDeliver c ev then enqueueEvent cap threshold window now c ev
      else c
  | _ => c

/-- Modelled from the spec: route(event) fans an event out over a broadcast
snapshot of the connection set (section 4.5; websocket_service.py absent). -/
def route (cap threshold window now : Nat) (ev : DomainEvent)
    (conns : List Connection) : List Connection :=
  conns.map (routeOne cap threshold window now ev)

/-- Inbound frame as seen by the command dispatcher: either an unparseable
payload, or a parsed JSON object restricted to the protocol fields action,
type, camera and filter of docs/WEBSOCKET_SUBSCRIPTIONS.md. -/
inductive Inbound
  | unparseable
  | msg (action : Option String) (ty : Option String) (camera : Option String)
      (fil : Option String)
deriving DecidableEq, Repr

/-- Parse of the optional filter field of a subscribe command: absent means
the default all; an unknown string is a protocol error. -/
def parseFilterKind : Option String → Option FilterKind
  | Option.none => some FilterKind.all
  | some "all" => some FilterKind.all
  | some "unregistered" => some FilterKind.unregistered
  | some "registered" => some FilterKind.registered
  | some "none" => some FilterKind.none
  | some _ => Option.none

/-- Responses a single inbound frame can produce, per sections 4.4 and 6:
exactly one of an acknowledgment, a protocol-error response, or no response. -/
inductive Response
  | subscribed (camera : String) (subscriptions : List String)
  | unsubscribed (camera : String) (subscriptions : List String)
  | subscriptionsList (cams : List String)
  | pong
  | statsPush
  | statusPush
  | errorResp
  | noResponse
deriving DecidableEq, Repr

/-- Closed tagged-variant command type the boundary parser maps inbound
frames into, per spec sections 6 and 9. -/
inductive Command
  | subscribeCmd (camera : String) (fk : FilterKind)
  | unsubscribeCmd (camera : String)
  | subscribeAllCmd
  | getSubscriptions
  | pingCmd
  | getStats
  | getStatus
deriving DecidableEq, Repr

/-- Modelled from the spec: the boundary parser of sections 6 and 9
(websocket_service.py absent).  Subscription commands are keyed by the action
field, liveness and query commands by the type field; an unparseable payload,
an unknown action or type, a missing required camera field or an unknown
filter string all fail to parse. -/
def parseCommand : Inbound → Option Command
  | .unparseable => Option.none
  | .msg action ty camera fil =>
    match action with
    | some "subscribe" =>
        match camera, parseFilterKind fil with
        | some cam, some fk => some (Command.subscribeCmd cam fk)
        | _, _ => Option.none
    | some "unsubscribe" =>
        match camera with
        | some cam => some (Command.unsubscribeCmd cam)
        | Option.none => Option.none
    | some "subscribe_all" => some Command.subscribeAllCmd
    | some "get_subscriptions" => some Command.getSubscriptions
    | some _ => Option.none
    | Option.none =>
        match ty with
        | some "ping" => some Command.pingCmd
        | some "get_stats" => some Command.getStats
        | some "get_status" => some Command.getStatus
        | _ => Option.none

/-- Modelled from the spec: effect of one well-formed command on a connection,
with its single response, per the command table of section 6
(websocket_service.py absent). -/
def applyCommand (c : Connection) : Command → Connection × Response
  | .subscribeCmd cam fk =>
      let subs := subscribe c.subs cam fk
      ({ c with subs := subs }, Response.subscribed cam (listCams subs))
  | .unsubscribeCmd cam =>
      let subs := unsubscribe c.subs cam
      ({ c with subs := subs }, Response.unsubscribed cam (listCams subs))
  | .subscribeAllCmd => ({ c with subscribeAll := true }, Response.noResponse)
  | .getSubscriptions => (c, Response.subscriptionsList (listCams c.subs))
  | .pingCmd => (c, Response.pong)
  | .getStats => (c, Response.statsPush)
  | .getStatus => (c, Response.statusPush)

/-- Modelled from the spec: the inbound dispatcher of sections 4.4 and 6
(websocket_service.py absent): parse at the boundary, apply a well-formed
command, answer anything malformed with a structured error response without
touching the connection.  The liveness timestamp is updated separately by the
heartbeat machinery. -/
def handleInbound (c : Connection) (m : Inbound) : Connection × Response :=
  match parseCommand m with
  | some cmd => applyCommand c cmd
  | Option.none => (c, Response.errorResp)

/-- Whether an inbound frame is malformed: it does not parse into any command
(unparseable payload, unknown action or type, missing required camera field,
or unknown filter kind). -/
def malformedInbound (m : Inbound) : Bool :=
  (parseCommand m).isNone

/-- Client heartbeat period in seconds, from the 30000 millisecond interval in
src/static/js/websocket.js and the protocol documentation. -/
def HEARTBEAT_INTERVAL : Nat := 30

/-- Modelled from the spec: the idle bound of the Heartbeat Supervisor, three
missed 30-second client heartbeats (section 4.6; websocket_service.py absent). -/
def IDLE_BOUND : Nat := 3 * HEARTBEAT_INTERVAL

/-- Modelled from the spec: one check of the Heartbeat Supervisor at the given
time; a connection whose last inbound message is older than the idle bound is
transitioned to Closing (section 4.6; websocket_service.py absent). -/
def supervisorCheck (now : Nat) (c : Connection) : Connection :=
  if c.lastLiveness + IDLE_BOUND < now then
    { c with state := ConnState.Closing }
  else c

/-- Timed occurrence on one connection: an inbound frame at a time, or a
supervisor liveness check at a time. -/
inductive TimedEvent
  | inbound (t : Nat) (m : Inbound)
  | check (t : Nat)
deriving DecidableEq, Repr

/-- Modelled from the spec: one step of a connection's timeline.  Every inbound
message, of any kind, extends the liveness deadline by updating the
last-liveness timestamp (section 4.6); a check applies the supervisor. -/
def traceStep (c : Connection) : TimedEvent → Connection
  | .inbound t m => { (handleInbound c m).1 with lastLiveness := t }
  | .check t => supervisorCheck t c

/-- Run a connection through a timeline of inbound frames and supervisor
checks. -/
def runTrace (c : Connection) (tr : List TimedEvent) : Connection :=
  tr.foldl traceStep c

/-- A timeline in which the client proves liveness at least every
HEARTBEAT_INTERVAL seconds: relative to the time of the last inbound message,
every subsequent occurrence (inbound or check) happens no later than one
heartbeat period afterwards, and time never goes backwards. -/
def neverLate (last : Nat) : List TimedEvent → Bool
  | [] => true
  | .inbound t _ :: rest =>
      (decide (last ≤ t) && decide (t ≤ last + HEARTBEAT_INTERVAL))
        && neverLate t rest
  | .check t :: rest =>
      (decide (last ≤ t) && decide (t ≤ last + HEARTBEAT_INTERVAL))
        && neverLate last rest

/-- Registry operations a connection's command path can perform, used to state
the reachable-registry invariant. -/
inductive RegOp
  | sub (camera : String) (fk : FilterKind)
  | unsub (camera : String)
deriving DecidableEq, Repr

/-- Apply one registry operation. -/
def applyRegOp (subs : SubscriptionRegistry) : RegOp → SubscriptionRegistry
  | .sub camera fk => subscribe subs camera fk
  | .unsub camera => unsubscribe subs camera

/-- Registry obtained from the empty initial registry of a fresh connection by
a sequence of subscribe and unsubscribe operations. -/
def applyRegOps (ops : List RegOp) : SubscriptionRegistry :=
  ops.foldl applyRegOp []

/-- Modelled from the spec: the data payload of a stats event, carrying the
fields total, granted and denied (spec section 3 and the stats message of
docs/WEBSOCKET_SUBSCRIPTIONS.md; websocket_service.py absent), as a JSON-style
field map. -/
def statsPayload (s : StatsData) : List (String × Nat) :=
  [("total", s.total), ("granted", s.granted), ("denied", s.denied)]

/-- Lookup of a field in a JSON-style object, mirroring JavaScript property
access (absent field reads as undefined, modelled as Option.none). -/
def jsonLookup (o : List (String × Nat)) (k : String) : Option Nat :=
  (o.find? (fun p => p.1 == k)).map (fun p => p.2)

/-- The element-id to stats-field association hard-coded in updateStats in
src/static/js/app.js: stat-total from total, stat-granted from granted,
stat-denied from denied, stat-unknown from unknown. -/
def statElementIds : List (String × String) :=
  [("stat-total", "total"), ("stat-granted", "granted"),
   ("stat-denied", "denied"), ("stat-unknown", "unknown")]

/-- The stats fields the dashboard updateStats function reads. -/
def updateStatsReadFields : List String :=
  statElementIds.map (fun p => p.2)

/-- The updateStats function of src/static/js/app.js, as the list of text
writes it performs: for each element id, the value read from the corresponding
field of the stats object. -/
def updateStats (stats : List (String × Nat)) : List (String × Option Nat) :=
  statElementIds.map (fun p => (p.1, jsonLookup stats p.2))

/-- The data payload of an access_event as consumed by addAccessEvent in
src/static/js/app.js. -/
structure AccessEventData where
  plate : String
  access_granted : Bool
  image_url : Option String
  owner_name : Option String
  unit_name : String
  timestamp : Option String
deriving DecidableEq, Repr

/-- A feed DOM item as built by addAccessEvent in src/static/js/app.js,
with the pieces of its class attribute and inner markup kept structured. -/
structure FeedItem where
  className : String
  image : Option String
  plate : String
  details : String
  statusText : String
  time : Option String
deriving DecidableEq, Repr

/-- The feed item addAccessEvent builds from one access event, following the
template literal in src/static/js/app.js. -/
def renderFeedItem (e : AccessEventData) : FeedItem :=
  { className := "feed-item " ++ (if e.access_granted then "granted" else "denied")
    image := e.image_url
    plate := e.plate
    details :=
      match e.owner_name with
      | some owner => owner ++ " | " ++ e.unit_name
      | Option.none => "Unknown Vehicle"
    statusText := if e.access_granted then "GRANTED" else "DENIED"
    time := e.timestamp }

/-- The trailing while loop of addAccessEvent: while the feed holds more than
20 children, remove the last child. -/
def limitFeed (feed : List FeedItem) : List FeedItem :=
  if _h : 20 < feed.length then limitFeed feed.dropLast else feed
termination_by feed.length
decreasing_by
  simp only [List.length_dropLast]
  omega

/-- The addAccessEvent function of src/static/js/app.js, on the feed element's
child list (front = top of the feed): build the item, insert it before the
first child, then trim the feed to 20 items from the bottom. -/
def addAccessEvent (feed : List FeedItem) (e : AccessEventData) :
    List FeedItem :=
  limitFeed (renderFeedItem e :: feed)

/-- The reconnect delay of src/static/js/websocket.js, in milliseconds. -/
def WS_RECONNECT_DELAY : Nat := 5000

/-- State of the dashboard WebSocket client relevant to reconnection:
whether the wsReconnectTimer handle variable is non-null, and the delays of
the reconnect timeouts currently armed in the event loop. -/
structure WsClientState where
  wsReconnectTimer : Bool
  armedTimers : List Nat
deriving DecidableEq, Repr

/-- The scheduleReconnect function of src/static/js/websocket.js: a no-op when
the timer handle is already set, otherwise it arms one timeout of
WS_RECONNECT_DELAY milliseconds and records the handle. -/
def scheduleReconnect (s : WsClientState) : WsClientState :=
  if s.wsReconnectTimer then s
  else { wsReconnectTimer := true
         armedTimers := s.armedTimers ++ [WS_RECONNECT_DELAY] }

/-- Expiry of an armed reconnect timeout: the callback in scheduleReconnect
nulls the handle and calls initWebSocket; when that synchronous initialization
fails, its catch block calls scheduleReconnect again. -/
def fireReconnectTimer (s : WsClientState) (initFails : Bool) : WsClientState :=
  match s.armedTimers with
  | [] => s
  | _ :: rest =>
      let s1 : WsClientState := { wsReconnectTimer := false, armedTimers := rest }
      if initFails then scheduleReconnect s1 else s1

/-- External occurrences driving the reconnect logic: the socket closing
(ws.onclose calls scheduleReconnect), a synchronous initWebSocket failure
(the catch block calls scheduleReconnect), or an armed timeout firing. -/
inductive WsClientEvent
  | onclose
  | initFailure
  | timerFire (initFails : Bool)
deriving DecidableEq, Repr

/-- One step of the reconnect state machine of src/static/js/websocket.js. -/
def wsClientStep (s : WsClientState) : WsClientEvent → WsClientState
  | .onclose => scheduleReconnect s
  | .initFailure => scheduleReconnect s
  | .timerFire b => fireReconnectTimer s b

/-- Initial client state: wsReconnectTimer is null and nothing is armed. -/
def wsClientInit : WsClientState :=
  { wsReconnectTimer := false, armedTimers := [] }

/-- Run the reconnect state machine from the initial state. -/
def runWsClient (evs : List WsClientEvent) : WsClientState :=
  evs.foldl wsClientStep wsClientInit

/-! Helper lemmas about the subscription registry. -/

theorem find?_subscribe_self (subs : SubscriptionRegistry) (cam : String)
    (fk : FilterKind) :
    (subscribe subs cam fk).find? (fun p => p.1 == cam) = some (cam, fk) := by
  unfold subscribe
  split
  case isTrue hAny =>
    induction subs with
    | nil => simp at hAny
    | cons p rest ih =>
      simp only [List.map_cons]
      by_cases hp : (p.1 == cam) = true
      · rw [if_pos hp]
        exact List.find?_cons_of_pos _ (by simp)
      · rw [if_neg hp]
        rw [List.find?_cons_of_neg _ (by simpa using hp)]
        apply ih
        simp only [List.any_cons, Bool.or_eq_true] at hAny
        rcases hAny with h | h
        · exact absurd h hp
        · exact h
  case isFalse hAny =>
    rw [List.find?_append]
    have hnone : subs.find? (fun p => p.1 == cam) = Option.none := by
      rw [List.find?_eq_none]
      intro x hx hpx
      exact hAny (List.any_eq_true.mpr ⟨x, hx, hpx⟩)
    rw [hnone]
    simp [List.find?_cons_of_pos]

theorem lookupFilter_subscribe_self (subs : SubscriptionRegistry) (cam : String)
    (fk : FilterKind) :
    lookupFilter (subscribe subs cam fk) cam = some fk := by
  unfold lookupFilter
  rw [find?_subscribe_self]
  rfl

theorem mem_listCams_subscribe_self (subs : SubscriptionRegistry) (cam : String)
    (fk : FilterKind) : cam ∈ listCams (subscribe subs cam fk) := by
  have hmem : (cam, fk) ∈ subscribe subs cam fk :=
    List.mem_of_find?_eq_some (find?_subscribe_self subs cam fk)
  exact List.mem_map_of_mem (fun p => p.1) hmem

theorem listCams_subscribe_of_present (subs : SubscriptionRegistry)
    (cam : String) (fk : FilterKind)
    (h : subs.any (fun p => p.1 == cam) = true) :
    listCams (subscribe subs cam fk) = listCams subs := by
  unfold subscribe
  rw [if_pos h]
  unfold listCams
  rw [List.map_map]
  apply List.map_congr_left
  intro p _
  by_cases hp : (p.1 == cam) = true
  · simp only [Function.comp_apply, if_pos hp]
    exact (eq_of_beq hp).symm
  · simp only [Function.comp_apply, if_neg hp]

theorem nodup_listCams_subscribe (subs : SubscriptionRegistry) (cam : String)
    (fk : FilterKind) (h : (listCams subs).Nodup) :
    (listCams (subscribe subs cam fk)).Nodup := by
  by_cases hAny : subs.any (fun p => p.1 == cam) = true
  · rw [listCams_subscribe_of_present subs cam fk hAny]
    exact h
  · unfold subscribe
    rw [if_neg hAny]
    unfold listCams
    rw [List.map_append]
    rw [List.nodup_append]
    refine ⟨h, List.nodup_singleton cam, ?_⟩
    intro x hx hx2
    simp only [List.map_cons, List.map_nil, List.mem_singleton] at hx2
    subst hx2
    rcases List.mem_map.mp hx with ⟨p, hp, hfst⟩
    exact hAny (List.any_eq_true.mpr ⟨p, hp, by simp [hfst]⟩)

theorem nodup_listCams_unsubscribe (subs : SubscriptionRegistry) (cam : String)
    (h : (listCams subs).Nodup) : (listCams (unsubscribe subs cam)).Nodup := by
  have hsub : (unsubscribe subs cam).Sublist subs := List.filter_sublist subs
  have hmap := hsub.map (fun p : String × FilterKind => p.1)
  exact hmap.nodup h

theorem nodup_listCams_applyRegOps_from (subs : SubscriptionRegistry)
    (ops : List RegOp) (h : (listCams subs).Nodup) :
    (listCams (ops.foldl applyRegOp subs)).Nodup := by
  induction ops generalizing subs with
  | nil => exact h
  | cons op rest ih =>
    rw [List.foldl_cons]
    apply ih
    cases op with
    | sub cam fk => exact nodup_listCams_subscribe subs cam fk h
    | unsub cam => exact nodup_listCams_unsubscribe subs cam h

/-! Claim theorems about the Filter Engine and the Subscription Registry. -/

/-- C1: the filter predicate over CameraEvents is exactly: all matches every
event, unregistered matches iff accessGranted is false, registered iff it is
true, none matches no event; hence for a CameraEvent with accessGranted
false, a connection subscribed to its camera (without the subscribe-all
override) receives it under filter unregistered or all and not under
registered or none. -/
theorem filter_engine_camera_delivery :
    (∀ e : CameraEvent, filterMatches FilterKind.all e = true) ∧
    (∀ e : CameraEvent, filterMatches FilterKind.unregistered e = !e.accessGranted) ∧
    (∀ e : CameraEvent, filterMatches FilterKind.registered e = e.accessGranted) ∧
    (∀ e : CameraEvent, filterMatches FilterKind.none e = false) ∧
    (∀ (c : Connection) (e : CameraEvent) (fk : FilterKind),
      e.accessGranted = false → c.subscribeAll = false →
      lookupFilter c.subs e.camera = some fk →
      (shouldDeliver c (DomainEvent.camera_event e) = true ↔
        fk = FilterKind.all ∨ fk = FilterKind.unregistered)) := by
  refine ⟨fun _ => rfl, fun _ => rfl, fun _ => rfl, fun _ => rfl, ?_⟩
  intro c e fk hacc hall hlook
  simp only [shouldDeliver, deliversCameraEvent, hall, hlook, Bool.false_or]
  cases fk <;> simp [filterMatches, hacc]

/-- Witness for C1 at a concrete connection and event. -/
theorem filter_engine_camera_delivery_witness :
    shouldDeliver
      { id := 1, subs := [("GATE1", FilterKind.unregistered)],
        subscribeAll := false, queue := [], overflowTimes := [],
        lastLiveness := 0, state := ConnState.Open }
      (DomainEvent.camera_event
        { camera := "GATE1", plate := "SBA1234X", confidence := 95,
          accessGranted := false, vehicleType := "car",
          timestamp := "2026-02-14T10:30:00", imageRef := "img" }) = true :=
  (filter_engine_camera_delivery.2.2.2.2 _ _ FilterKind.unregistered rfl rfl
    (by decide)).mpr (Or.inr rfl)

/-- C3: a second subscribe for the same camera replaces the prior filter
rather than duplicating the entry: starting from a duplicate-free registry,
after subscribe(K, f) then subscribe(K, f2) the camera list names K exactly
once with effective filter f2; and every registry reachable from the empty
one by subscribe and unsubscribe operations is duplicate-free. -/
theorem subscribe_replaces_and_registry_nodup :
    (∀ (subs : SubscriptionRegistry) (K : String) (f f2 : FilterKind),
      (listCams subs).Nodup →
      (listCams (subscribe (subscribe subs K f) K f2)).count K = 1 ∧
      lookupFilter (subscribe (subscribe subs K f) K f2) K = some f2 ∧
      (listCams (subscribe (subscribe subs K f) K f2)).Nodup) ∧
    (∀ ops : List RegOp, (listCams (applyRegOps ops)).Nodup) := by
  constructor
  · intro subs K f f2 h
    have h1 : (listCams (subscribe subs K f)).Nodup :=
      nodup_listCams_subscribe subs K f h
    have h2 : (listCams (subscribe (subscribe subs K f) K f2)).Nodup :=
      nodup_listCams_subscribe _ K f2 h1
    refine ⟨?_, lookupFilter_subscribe_self _ K f2, h2⟩
    exact List.count_eq_one_of_mem h2 (mem_listCams_subscribe_self _ K f2)
  · intro ops
    exact nodup_listCams_applyRegOps_from [] ops List.nodup_nil

/-- Witness for C3 at a concrete registry and camera. -/
theorem subscribe_replaces_and_registry_nodup_witness :
    (listCams (subscribe (subscribe [("CAM1", FilterKind.all)] "GATE1"
        FilterKind.all) "GATE1" FilterKind.unregistered)).count "GATE1" = 1 ∧
    lookupFilter (subscribe (subscribe [("CAM1", FilterKind.all)] "GATE1"
        FilterKind.all) "GATE1" FilterKind.unregistered) "GATE1"
      = some FilterKind.unregistered :=
  ⟨(subscribe_replaces_and_registry_nodup.1 [("CAM1", FilterKind.all)] "GATE1"
      FilterKind.all FilterKind.unregistered (by decide)).1,
   (subscribe_replaces_and_registry_nodup.1 [("CAM1", FilterKind.all)] "GATE1"
      FilterKind.all FilterKind.unregistered (by decide)).2.1⟩

/-- C4: unsubscribing a camera that is not subscribed is an idempotent no-op:
the registry is unchanged, the connection is unchanged, and the command still
produces the unsubscribed success response carrying the unchanged camera
list. -/
theorem unsubscribe_absent_is_noop :
    ∀ (c : Connection) (K : String), K ∉ listCams c.subs →
      unsubscribe c.subs K = c.subs ∧
      handleInbound c
          (Inbound.msg (some "unsubscribe") Option.none (some K) Option.none)
        = (c, Response.unsubscribed K (listCams c.subs)) := by
  intro c K hK
  have heq : unsubscribe c.subs K = c.subs := by
    unfold unsubscribe
    rw [List.filter_eq_self]
    intro p hp
    simp only [Bool.not_eq_eq_eq_not, Bool.not_true, beq_eq_false_iff_ne]
    intro hfst
    exact hK (hfst ▸ List.mem_map_of_mem (fun q => q.1) hp)
  refine ⟨heq, ?_⟩
  show ({ c with subs := unsubscribe c.subs K },
      Response.unsubscribed K (listCams (unsubscribe c.subs K)))
    = (c, Response.unsubscribed K (listCams c.subs))
  rw [heq]

/-- Witness for C4 at a concrete connection with no subscription for the
camera being unsubscribed. -/
theorem unsubscribe_absent_is_noop_witness :
    handleInbound
        { id := 2, subs := [("CAM1", FilterKind.all)], subscribeAll := false,
          queue := [], overflowTimes := [], lastLiveness := 0,
          state := ConnState.Open }
        (Inbound.msg (some "unsubscribe") Option.none (some "GATE9")
          Option.none)
      = (({ id := 2, subs := [("CAM1", FilterKind.all)],
            subscribeAll := false, queue := [], overflowTimes := [],
            lastLiveness := 0, state := ConnState.Open } : Connection),
         Response.unsubscribed "GATE9" ["CAM1"]) :=
  (unsubscribe_absent_is_noop _ "GATE9" (by decide)).2

/-! Helper lemmas about routing and the bounded outbound queue. -/

theorem shouldDeliver_non_camera (c : Connection) (ev : DomainEvent)
    (h : DomainEvent.isCamera ev = false) : shouldDeliver c ev = true := by
  cases ev <;> simp_all [shouldDeliver, DomainEvent.isCamera]

theorem mem_queue_enqueueEvent (cap threshold window now : Nat)
    (c : Connection) (ev : DomainEvent) :
    ev ∈ (enqueueEvent cap threshold window now c ev).queue := by
  unfold enqueueEvent
  split <;> simp

theorem id_enqueueEvent (cap threshold window now : Nat) (c : Connection)
    (ev : DomainEvent) :
    (enqueueEvent cap threshold window now c ev).id = c.id := by
  unfold enqueueEvent
  split <;> rfl

theorem route_getElem (cap threshold window now : Nat) (ev : DomainEvent)
    (conns : List Connection) (i : Nat) (c : Connection)
    (h : conns[i]? = some c) :
    (route cap threshold window now ev conns)[i]?
      = some (routeOne cap threshold window now ev c) := by
  unfold route
  rw [List.getElem?_map, h]
  rfl

theorem routeOne_open_deliver (cap threshold window now : Nat)
    (ev : DomainEvent) (c : Connection) (hst : c.state = ConnState.Open)
    (hdel : shouldDeliver c ev = true) :
    routeOne cap threshold window now ev c
      = enqueueEvent cap threshold window now c ev := by
  unfold routeOne
  rw [hst]
  simp [hdel]

/-- C2: every DomainEvent that is not a CameraEvent is delivered to every Open
connection of the snapshot unconditionally, regardless of its subscription
registry and subscribe-all flag (including a connection with zero
subscriptions); only CameraEvents go through the Filter Engine decision. -/
theorem non_camera_events_broadcast_unconditionally :
    (∀ (c : Connection) (ev : DomainEvent), DomainEvent.isCamera ev = false →
      shouldDeliver c ev = true) ∧
    (∀ (c : Connection) (e : CameraEvent),
      shouldDeliver c (DomainEvent.camera_event e) = deliversCameraEvent c e) ∧
    (∀ (cap threshold window now : Nat) (ev : DomainEvent)
      (conns : List Connection) (i : Nat) (c : Connection),
      DomainEvent.isCamera ev = false → conns[i]? = some c →
      c.state = ConnState.Open →
      ∃ c2, (route cap threshold window now ev conns)[i]? = some c2 ∧
        c2.id = c.id ∧ ev ∈ c2.queue) := by
  refine ⟨shouldDeliver_non_camera, fun _ _ => rfl, ?_⟩
  intro cap threshold window now ev conns i c hcam hi hst
  refine ⟨enqueueEvent cap threshold window now c ev, ?_, ?_, ?_⟩
  · rw [route_getElem cap threshold window now ev conns i c hi,
      routeOne_open_deliver cap threshold window now ev c hst
        (shouldDeliver_non_camera c ev hcam)]
  · exact id_enqueueEvent cap threshold window now c ev
  · exact mem_queue_enqueueEvent cap threshold window now c ev

/-- Sample access_event used by concrete witnesses. -/
def sampleAccessEvent : DomainEvent :=
  DomainEvent.access_event
    { plate := "SBA1234X", camera := "GATE1", accessGranted := true,
      action := "barrier_opened" }

/-- Sample Open connection with zero subscriptions used by concrete
witnesses. -/
def sampleEmptyConn : Connection :=
  { id := 7, subs := [], subscribeAll := false, queue := [],
    overflowTimes := [], lastLiveness := 0, state := ConnState.Open }

/-- Witness for C2: an access_event reaches a zero-subscription Open
connection through the router. -/
theorem non_camera_events_broadcast_unconditionally_witness :
    ∃ c2, (route 10 3 60 0 sampleAccessEvent [sampleEmptyConn])[0]? = some c2 ∧
      c2.id = 7 ∧ sampleAccessEvent ∈ c2.queue :=
  non_camera_events_broadcast_unconditionally.2.2 10 3 60 0 sampleAccessEvent
    [sampleEmptyConn] 0 sampleEmptyConn rfl rfl rfl

/-- C7: enqueueing onto a full outbound queue discards exactly the oldest
queued event and admits the newest at the back (so the newest event stays
queued for delivery), records the overflow occurrence, and moves the
connection to Closing exactly when the overflows inside the configured window
exceed the configured threshold. -/
theorem overflow_drop_oldest_then_degrade :
    ∀ (cap threshold window now : Nat) (c : Connection) (ev : DomainEvent),
      0 < cap → c.queue.length = cap →
      (enqueueEvent cap threshold window now c ev).queue
          = c.queue.drop 1 ++ [ev] ∧
      (enqueueEvent cap threshold window now c ev).queue.length = cap ∧
      (enqueueEvent cap threshold window now c ev).queue.getLast? = some ev ∧
      (enqueueEvent cap threshold window now c ev).overflowTimes
          = c.overflowTimes ++ [now] ∧
      (threshold < recentOverflows window now (c.overflowTimes ++ [now]) →
        (enqueueEvent cap threshold window now c ev).state
          = ConnState.Closing) ∧
      (recentOverflows window now (c.overflowTimes ++ [now]) ≤ threshold →
        (enqueueEvent cap threshold window now c ev).state = c.state) := by
  intro cap threshold window now c ev hcap hlen
  have hfull : ¬(c.queue.length < cap) := by omega
  unfold enqueueEvent
  rw [if_neg hfull]
  refine ⟨rfl, ?_, List.getLast?_concat _, rfl, ?_, ?_⟩
  · simp only [List.length_append, List.length_drop, List.length_cons,
      List.length_nil]
    omega
  · intro hthr
    simp only
    rw [if_pos hthr]
  · intro hthr
    simp only
    rw [if_neg (by omega)]

/-- Sample Open connection with a full two-slot queue and one earlier
overflow inside the window, used by the C7 witness. -/
def sampleFullConn : Connection :=
  { id := 3, subs := [], subscribeAll := false,
    queue := [DomainEvent.stats { total := 1, granted := 1, denied := 0 },
      DomainEvent.stats { total := 2, granted := 1, denied := 1 }],
    overflowTimes := [5], lastLiveness := 0, state := ConnState.Open }

/-- Witness for C7: a full two-slot queue drops its oldest event, keeps the
newest, and a second overflow inside the window crosses the threshold. -/
theorem overflow_drop_oldest_then_degrade_witness :
    (enqueueEvent 2 1 60 10 sampleFullConn
        (DomainEvent.stats { total := 3, granted := 2, denied := 1 })).queue
      = [DomainEvent.stats { total := 2, granted := 1, denied := 1 },
         DomainEvent.stats { total := 3, granted := 2, denied := 1 }] ∧
    (enqueueEvent 2 1 60 10 sampleFullConn
        (DomainEvent.stats { total := 3, granted := 2, denied := 1 })).state
      = ConnState.Closing :=
  ⟨(overflow_drop_oldest_then_degrade 2 1 60 10 sampleFullConn
      (DomainEvent.stats { total := 3, granted := 2, denied := 1 })
      (by decide) rfl).1,
   (overflow_drop_oldest_then_degrade 2 1 60 10 sampleFullConn
      (DomainEvent.stats { total := 3, granted := 2, denied := 1 })
      (by decide) rfl).2.2.2.2.1 (by decide)⟩

/-! Helper lemmas about command handling and the heartbeat timeline. -/

theorem handleInbound_state (c : Connection) (m : Inbound) :
    (handleInbound c m).1.state = c.state := by
  unfold handleInbound
  cases hp : parseCommand m with
  | none => rfl
  | some cmd => cases cmd <;> rfl

theorem supervisorCheck_of_recent (c : Connection) (now : Nat)
    (h : ¬(c.lastLiveness + IDLE_BOUND < now)) : supervisorCheck now c = c := by
  unfold supervisorCheck
  rw [if_neg h]

theorem runTrace_state_open (c : Connection) (tr : List TimedEvent)
    (hst : c.state = ConnState.Open)
    (h : neverLate c.lastLiveness tr = true) :
    (runTrace c tr).state = ConnState.Open := by
  induction tr generalizing c with
  | nil => exact hst
  | cons te rest ih =>
    cases te with
    | inbound t m =>
      simp only [neverLate, Bool.and_eq_true, decide_eq_true_eq] at h
      obtain ⟨⟨h1, h2⟩, h3⟩ := h
      show (runTrace ({ (handleInbound c m).1 with lastLiveness := t })
        rest).state = ConnState.Open
      apply ih
      · show (handleInbound c m).1.state = ConnState.Open
        rw [handleInbound_state]
        exact hst
      · exact h3
    | check t =>
      simp only [neverLate, Bool.and_eq_true, decide_eq_true_eq] at h
      obtain ⟨⟨h1, h2⟩, h3⟩ := h
      have hrec : ¬(c.lastLiveness + IDLE_BOUND < t) := by
        unfold IDLE_BOUND HEARTBEAT_INTERVAL at *
        omega
      show (runTrace (supervisorCheck t c) rest).state = ConnState.Open
      rw [supervisorCheck_of_recent c t hrec]
      exact ih c hst h3

/-- C6: the idle bound is three missed 30-second client heartbeats, 90
seconds; a supervisor check finding an Open connection whose last inbound
message is older than the idle bound transitions it to Closing; and along any
timeline in which the client sends some inbound message at least every 30
seconds (every inbound message extending the liveness deadline), the
connection is never closed by the heartbeat supervisor. -/
theorem heartbeat_idle_bound_and_keepalive :
    IDLE_BOUND = 90 ∧ HEARTBEAT_INTERVAL = 30 ∧
    (∀ (c : Connection) (now : Nat), c.state = ConnState.Open →
      c.lastLiveness + IDLE_BOUND < now →
      (supervisorCheck now c).state = ConnState.Closing) ∧
    (∀ (c : Connection) (tr : List TimedEvent), c.state = ConnState.Open →
      neverLate c.lastLiveness tr = true →
      (runTrace c tr).state = ConnState.Open) := by
  refine ⟨rfl, rfl, ?_, runTrace_state_open⟩
  intro c now _ hlate
  unfold supervisorCheck
  rw [if_pos hlate]

/-- Frame carrying a client-level ping. -/
def pingInbound : Inbound :=
  Inbound.msg Option.none (some "ping") Option.none Option.none

/-- Timeline in which the client pings every 25 seconds while supervisor
checks interleave, used by the C6 witness. -/
def samplePingTrace : List TimedEvent :=
  [TimedEvent.inbound 25 pingInbound, TimedEvent.check 30,
   TimedEvent.inbound 50 pingInbound, TimedEvent.check 70,
   TimedEvent.inbound 75 pingInbound]

/-- Witness for C6: a stale connection is closed at a concrete check time,
and a concretely pinging connection survives a concrete timeline. -/
theorem heartbeat_idle_bound_and_keepalive_witness :
    (supervisorCheck 91 sampleEmptyConn).state = ConnState.Closing ∧
    (runTrace sampleEmptyConn samplePingTrace).state = ConnState.Open :=
  ⟨heartbeat_idle_bound_and_keepalive.2.2.1 sampleEmptyConn 91 rfl (by decide),
   heartbeat_idle_bound_and_keepalive.2.2.2 sampleEmptyConn samplePingTrace rfl
     (by decide)⟩

/-- Open connection with a full one-slot queue that has already overflowed
past a zero threshold, used by the C5 counterexample. -/
def sampleSlowConn : Connection :=
  { id := 4, subs := [("CAM1", FilterKind.all)], subscribeAll := false,
    queue := [DomainEvent.stats { total := 1, granted := 1, denied := 0 }],
    overflowTimes := [], lastLiveness := 8, state := ConnState.Open }

/-- Counterexample to C5 as stated: its final clause says only a
transport-level failure or a heartbeat timeout moves a connection out of
Open, but the backpressure policy also does: this Open connection leaves Open
through the router's overflow handling alone, with no transport failure and
no heartbeat timeout (its last liveness is recent at the time of the
enqueue). -/
theorem malformed_input_keeps_connection_open_counterexample :
    sampleSlowConn.state = ConnState.Open ∧
    sampleSlowConn.lastLiveness + IDLE_BOUND ≥ 10 ∧
    (enqueueEvent 1 0 60 10 sampleSlowConn
      (DomainEvent.stats { total := 2, granted := 1, denied := 1 })).state
      = ConnState.Closing := by
  refine ⟨rfl, by decide, by decide⟩

/-- C5 as amended: every malformed inbound frame (unparseable payload,
unknown action or type, missing required field) is answered with a structured
error response and leaves the connection completely unchanged; inbound
command handling never moves a connection out of Open — a connection leaves
Open only through transport-level failure, heartbeat timeout, or the
slow-consumer overflow policy. -/
theorem malformed_input_error_keeps_open :
    (∀ (c : Connection) (m : Inbound), malformedInbound m = true →
      handleInbound c m = (c, Response.errorResp)) ∧
    (∀ (c : Connection) (m : Inbound),
      (handleInbound c m).1.state = c.state) ∧
    malformedInbound Inbound.unparseable = true ∧
    (∀ ty cam fil,
      malformedInbound (Inbound.msg (some "frobnicate") ty cam fil) = true) ∧
    (∀ cam fil,
      malformedInbound (Inbound.msg Option.none (some "frobnicate") cam fil)
        = true) ∧
    (∀ ty fil,
      malformedInbound (Inbound.msg (some "subscribe") ty Option.none fil)
        = true) ∧
    (∀ ty cam,
      malformedInbound
          (Inbound.msg (some "subscribe") ty cam (some "frobnicate")) = true) := by
  refine ⟨?_, handleInbound_state, rfl, fun _ _ _ => rfl, fun _ _ => rfl,
    fun _ _ => rfl, ?_⟩
  · intro c m h
    have hnone : parseCommand m = Option.none := by
      unfold malformedInbound at h
      exact Option.isNone_iff_eq_none.mp h
    unfold handleInbound
    rw [hnone]
  · intro ty cam
    cases cam <;> rfl

/-- Witness for C5 as amended: a concrete unknown-action frame draws an error
response and leaves a concrete connection unchanged. -/
theorem malformed_input_error_keeps_open_witness :
    handleInbound sampleEmptyConn
        (Inbound.msg (some "frobnicate") Option.none Option.none Option.none)
      = (sampleEmptyConn, Response.errorResp) :=
  malformed_input_error_keeps_open.1 sampleEmptyConn
    (Inbound.msg (some "frobnicate") Option.none Option.none Option.none) rfl

/-! Claim theorems about the stats event and the dashboard stats display. -/

/-- Counterexample to C8 as stated: the documented stats data payload carries
exactly the fields total, granted and denied, but that is not exactly the
shape consumed by the dashboard updateStats function, which additionally
reads a fourth field named unknown that the payload does not carry. -/
theorem stats_fields_updateStats_counterexample :
    (statsPayload { total := 45, granted := 40, denied := 5 }).map Prod.fst
      = ["total", "granted", "denied"] ∧
    (statsPayload { total := 45, granted := 40, denied := 5 }).map Prod.fst
      ≠ updateStatsReadFields ∧
    "unknown" ∈ updateStatsReadFields ∧
    jsonLookup (statsPayload { total := 45, granted := 40, denied := 5 })
      "unknown" = Option.none := by
  refine ⟨rfl, by decide, by decide, rfl⟩

/-- C8 as amended: every stats event carries exactly the fields total,
granted and denied in its data payload; the dashboard updateStats function
reads those three fields and additionally a fourth field unknown which the
payload does not carry (so that element text stays undefined); and a stats
event is routed to every Open connection of the snapshot regardless of
subscription state. -/
theorem stats_payload_fields_and_broadcast :
    (∀ s : StatsData,
      (statsPayload s).map Prod.fst = ["total", "granted", "denied"]) ∧
    (∀ s : StatsData, updateStats (statsPayload s)
      = [("stat-total", some s.total), ("stat-granted", some s.granted),
         ("stat-denied", some s.denied), ("stat-unknown", Option.none)]) ∧
    (∀ (cap threshold window now : Nat) (s : StatsData)
      (conns : List Connection) (i : Nat) (c : Connection),
      conns[i]? = some c → c.state = ConnState.Open →
      ∃ c2, (route cap threshold window now (DomainEvent.stats s) conns)[i]?
          = some c2 ∧ c2.id = c.id ∧ DomainEvent.stats s ∈ c2.queue) := by
  refine ⟨fun _ => rfl, fun _ => rfl, ?_⟩
  intro cap threshold window now s conns i c hi hst
  refine ⟨enqueueEvent cap threshold window now c (DomainEvent.stats s),
    ?_, ?_, ?_⟩
  · rw [route_getElem cap threshold window now (DomainEvent.stats s) conns i c
      hi, routeOne_open_deliver cap threshold window now (DomainEvent.stats s)
      c hst (shouldDeliver_non_camera c (DomainEvent.stats s) rfl)]
  · exact id_enqueueEvent cap threshold window now c (DomainEvent.stats s)
  · exact mem_queue_enqueueEvent cap threshold window now c
      (DomainEvent.stats s)

/-- Witness for C8 as amended: a concrete stats event reaches a concrete Open
connection with no subscriptions. -/
theorem stats_payload_fields_and_broadcast_witness :
    ∃ c2, (route 10 3 60 0
        (DomainEvent.stats { total := 45, granted := 40, denied := 5 })
        [sampleEmptyConn])[0]? = some c2 ∧ c2.id = 7 ∧
      DomainEvent.stats { total := 45, granted := 40, denied := 5 }
        ∈ c2.queue :=
  stats_payload_fields_and_broadcast.2.2 10 3 60 0
    { total := 45, granted := 40, denied := 5 } [sampleEmptyConn] 0
    sampleEmptyConn rfl rfl

/-! Helper lemmas about the dashboard access feed. -/

theorem limitFeed_of_le (l : List FeedItem) (h : ¬20 < l.length) :
    limitFeed l = l := by
  rw [limitFeed]
  rw [dif_neg h]

theorem limitFeed_step (l : List FeedItem) (h : 20 < l.length) :
    limitFeed l = limitFeed l.dropLast := by
  rw [limitFeed]
  rw [dif_pos h]

theorem limitFeed_length_le (l : List FeedItem) :
    (limitFeed l).length ≤ 20 := by
  induction l using limitFeed.induct with
  | case1 l h ih =>
    rw [limitFeed_step l h]
    exact ih
  | case2 l h =>
    rw [limitFeed_of_le l h]
    omega

theorem limitFeed_head? (l : List FeedItem) (hne : l ≠ []) :
    (limitFeed l).head? = l.head? := by
  induction l using limitFeed.induct with
  | case1 l h ih =>
    rw [limitFeed_step l h]
    cases l with
    | nil => simp at h
    | cons a rest =>
      have hrest : rest ≠ [] := by
        intro hnil
        rw [hnil] at h
        simp at h
      have hd : (a :: rest).dropLast = a :: rest.dropLast :=
        List.dropLast_cons_of_ne_nil hrest
      have hne2 : (a :: rest).dropLast ≠ [] := by
        rw [hd]
        simp
      rw [ih hne2, hd]
      rfl
  | case2 l h =>
    rw [limitFeed_of_le l h]

/-- C9: the dashboard access feed is bounded and newest-first: after every
addAccessEvent call the feed holds at most 20 items and the freshly rendered
item is the first child; when the feed already holds 20 items, adding one
removes exactly the oldest (last) item. -/
theorem access_feed_bounded_newest_first :
    ∀ (feed : List FeedItem) (e : AccessEventData),
      (addAccessEvent feed e).length ≤ 20 ∧
      (addAccessEvent feed e).head? = some (renderFeedItem e) ∧
      (feed.length = 20 →
        addAccessEvent feed e = renderFeedItem e :: feed.dropLast) := by
  intro feed e
  refine ⟨limitFeed_length_le _, ?_, ?_⟩
  · unfold addAccessEvent
    rw [limitFeed_head? _ (by simp)]
    rfl
  · intro h20
    have hne : feed ≠ [] := by
      intro hnil
      rw [hnil] at h20
      simp at h20
    unfold addAccessEvent
    rw [limitFeed_step _ (by simp [h20])]
    rw [List.dropLast_cons_of_ne_nil hne]
    apply limitFeed_of_le
    simp only [List.length_cons, List.length_dropLast, h20]
    omega

/-- Access event payload used by the C9 witness. -/
def sampleAccessData : AccessEventData :=
  { plate := "SBA1234X", access_granted := true,
    image_url := some "/images/20240115/abc1234.jpg",
    owner_name := some "John Doe", unit_name := "A-12-03",
    timestamp := some "2026-02-14T10:30:00" }

/-- Access event payload of a denied vehicle used by the C9 witness. -/
def sampleDeniedData : AccessEventData :=
  { plate := "ZZZ9999Z", access_granted := false, image_url := Option.none,
    owner_name := Option.none, unit_name := "", timestamp := Option.none }

/-- Witness for C9: on a concrete feed of exactly 20 items, adding an event
keeps the bound and drops exactly the last item. -/
theorem access_feed_bounded_newest_first_witness :
    (addAccessEvent (List.replicate 20 (renderFeedItem sampleAccessData))
        sampleDeniedData).length ≤ 20 ∧
    addAccessEvent (List.replicate 20 (renderFeedItem sampleAccessData))
        sampleDeniedData
      = renderFeedItem sampleDeniedData
          :: (List.replicate 20 (renderFeedItem sampleAccessData)).dropLast :=
  ⟨(access_feed_bounded_newest_first
      (List.replicate 20 (renderFeedItem sampleAccessData))
      sampleDeniedData).1,
   (access_feed_bounded_newest_first
      (List.replicate 20 (renderFeedItem sampleAccessData))
      sampleDeniedData).2.2 (by simp)⟩

/-! Helper lemmas about the reconnect state machine. -/

/-- Invariant of the reconnect machinery: the armed reconnect timeouts are
exactly one WS_RECONNECT_DELAY timeout when the handle variable is set and
none otherwise. -/
def wsInv (s : WsClientState) : Prop :=
  s.armedTimers = if s.wsReconnectTimer then [WS_RECONNECT_DELAY] else []

theorem wsInv_scheduleReconnect (s : WsClientState) (h : wsInv s) :
    wsInv (scheduleReconnect s) := by
  unfold wsInv scheduleReconnect at *
  by_cases hb : s.wsReconnectTimer = true
  · rw [if_pos hb]
    exact h
  · have hb2 : s.wsReconnectTimer = false := by
      cases hs : s.wsReconnectTimer
      · rfl
      · exact absurd hs hb
    rw [if_neg hb]
    rw [hb2] at h
    simp only [Bool.false_eq_true, if_false] at h
    simp [h]

theorem wsInv_step (s : WsClientState) (h : wsInv s) (ev : WsClientEvent) :
    wsInv (wsClientStep s ev) := by
  cases ev with
  | onclose => exact wsInv_scheduleReconnect s h
  | initFailure => exact wsInv_scheduleReconnect s h
  | timerFire b =>
    show wsInv (fireReconnectTimer s b)
    unfold wsInv at h
    unfold fireReconnectTimer
    by_cases hb : s.wsReconnectTimer = true
    · rw [hb] at h
      simp only [if_pos] at h
      rw [h]
      by_cases hf : b = true
      · rw [hf]
        simp only [if_pos]
        exact wsInv_scheduleReconnect _ (by unfold wsInv; rfl)
      · have hf2 : b = false := by
          cases hfb : b
          · rfl
          · exact absurd hfb hf
        rw [hf2]
        simp only [Bool.false_eq_true, if_neg, ite_false]
        unfold wsInv
        rfl
    · have hb2 : s.wsReconnectTimer = false := by
        cases hs : s.wsReconnectTimer
        · rfl
        · exact absurd hs hb
      rw [hb2] at h
      simp only [Bool.false_eq_true, if_false] at h
      rw [h]
      show wsInv s
      unfold wsInv
      rw [hb2, h]
      simp

theorem wsInv_runWsClient (evs : List WsClientEvent) :
    wsInv (runWsClient evs) := by
  have hgen : ∀ s : WsClientState, wsInv s →
      wsInv (evs.foldl wsClientStep s) := by
    induction evs with
    | nil => intro s h; exact h
    | cons ev rest ih =>
      intro s h
      rw [List.foldl_cons]
      exact ih _ (wsInv_step s h ev)
  exact hgen wsClientInit (by unfold wsInv wsClientInit; rfl)

/-- C10: the dashboard client never has more than one pending reconnect
timer: every reachable state of the reconnect machinery has at most one armed
timeout, every armed timeout has the 5000 millisecond reconnect delay, and a
scheduleReconnect call made while the timer handle is set is a no-op. -/
theorem reconnect_timer_unique :
    (∀ evs : List WsClientEvent,
      (runWsClient evs).armedTimers.length ≤ 1) ∧
    (∀ (evs : List WsClientEvent) (d : Nat),
      d ∈ (runWsClient evs).armedTimers → d = WS_RECONNECT_DELAY) ∧
    (∀ s : WsClientState, s.wsReconnectTimer = true →
      scheduleReconnect s = s) ∧
    WS_RECONNECT_DELAY = 5000 := by
  refine ⟨?_, ?_, ?_, rfl⟩
  · intro evs
    have h := wsInv_runWsClient evs
    unfold wsInv at h
    rw [h]
    by_cases hb : (runWsClient evs).wsReconnectTimer = true
    · rw [if_pos hb]
      simp
    · rw [if_neg hb]
      simp
  · intro evs d hd
    have h := wsInv_runWsClient evs
    unfold wsInv at h
    rw [h] at hd
    by_cases hb : (runWsClient evs).wsReconnectTimer = true
    · rw [if_pos hb] at hd
      simpa using hd
    · rw [if_neg hb] at hd
      simp at hd
  · intro s h
    unfold scheduleReconnect
    rw [if_pos h]

/-- Witness for C10: a second close event while a timer is pending arms
nothing further, and scheduleReconnect at a concrete armed state is a no-op. -/
theorem reconnect_timer_unique_witness :
    (runWsClient
        [WsClientEvent.onclose, WsClientEvent.onclose,
         WsClientEvent.initFailure]).armedTimers.length ≤ 1 ∧
    scheduleReconnect { wsReconnectTimer := true, armedTimers := [5000] }
      = { wsReconnectTimer := true, armedTimers := [5000] } :=
  ⟨reconnect_timer_unique.1
      [WsClientEvent.onclose, WsClientEvent.onclose, WsClientEvent.initFailure],
   reconnect_timer_unique.2.2.1
      { wsReconnectTimer := true, armedTimers := [5000] } rfl⟩

end PiBox
